import Mathlib

/-!
Verification of the EWMA streaming anomaly detector in `src/main.py`.

The core is `anomaly_detection(value, ewma, ewma_std, beta, threshold_multiplier)`:
it validates its arguments via `validate_params` (which raises `ValueError`),
then computes the EWMA update, the EWMA standard deviation update. and the
anomaly flag; a surrounding `try/except` catches any error and returns the
unmodified `(ewma, ewma_std, False)`.

Python floats are modelled as real numbers together with the non-finite
markers the validation code tests for (`nan`, `inf`) and a non-numeric case
(the `isinstance` test).  The source's default arguments (`beta=0.3`,
`threshold_multiplier=2`) play no role in the claims; all arguments are
passed explicitly here.
-/

open Real Filter

/-- A Python value passed as the `value` argument of `anomaly_detection`:
a finite number, a non-finite float (`nan`, `±inf`), or a non-numeric object. -/
inductive PyVal where
  | finite (x : ℝ)
  | nan
  | posInf
  | negInf
  | nonNumeric

/-- The four `ValueError` cases raised by `validate_params`, in source order:
invalid data value, invalid beta, non-positive threshold multiplier,
negative EWMA standard deviation. -/
inductive DetectError where
  | invalidValue
  | invalidBeta
  | invalidThreshold
  | invalidStd
deriving DecidableEq

/-- `isinstance(value, (int, float)) and not np.isnan(value) and not np.isinf(value)`:
true exactly on finite numbers. -/
def PyVal.isFiniteNumber : PyVal → Bool
  | .finite _ => true
  | _ => false

/-- The real number held by a `PyVal`.  Only meaningful on the success path
of `anomaly_detection`, which is reached only for `finite` values. -/
def PyVal.val : PyVal → ℝ
  | .finite x => x
  | _ => 0

/-- `validate_params(value, ewma, ewma_std, beta, threshold_multiplier)` from
`src/main.py` lines 31-40: raises (here: returns `.error`) on a non-finite or
non-numeric value, `beta` outside `(0,1)`, `threshold_multiplier ≤ 0`, or
`ewma_std < 0`, checked in that order; otherwise returns normally.
The `ewma` argument is accepted but never inspected, as in the source. -/
noncomputable def validate_params (value : PyVal) (ewma ewma_std beta threshold_multiplier : ℝ) :
    Except DetectError Unit :=
  if value.isFiniteNumber = false then .error .invalidValue
  else if ¬(0 < beta ∧ beta < 1) then .error .invalidBeta
  else if threshold_multiplier ≤ 0 then .error .invalidThreshold
  else if ewma_std < 0 then .error .invalidStd
  else .ok ()

/-- The arithmetic body of `anomaly_detection` (`src/main.py` lines 64-75),
reached after validation succeeds:
`ewma_new = beta*value + (1-beta)*ewma`,
`variance_new = beta*(value-ewma_new)**2 + (1-beta)*ewma_std**2`,
`ewma_std_new = np.sqrt(variance_new)`,
`threshold = threshold_multiplier * ewma_std_new`,
`is_anomaly = abs(value - ewma_new) > threshold`,
returning `(ewma_new, ewma_std_new, is_anomaly)`. -/
noncomputable def anomaly_core (value ewma ewma_std beta threshold_multiplier : ℝ) :
    ℝ × ℝ × Bool :=
  let ewma_new := beta * value + (1 - beta) * ewma
  let variance_new := beta * (value - ewma_new) ^ 2 + (1 - beta) * ewma_std ^ 2
  let ewma_std_new := Real.sqrt variance_new
  let threshold := threshold_multiplier * ewma_std_new
  let is_anomaly := decide (|value - ewma_new| > threshold)
  (ewma_new, ewma_std_new, is_anomaly)

/-- `anomaly_detection(value, ewma, ewma_std, beta, threshold_multiplier)`
from `src/main.py` lines 43-78: validates, computes the update, and returns
the triple; the `try/except Exception` wrapper turns any raised error into
the return value `(ewma, ewma_std, False)` (the `print` calls have no effect
on the returned values). -/
noncomputable def anomaly_detection (value : PyVal) (ewma ewma_std beta threshold_multiplier : ℝ) :
    ℝ × ℝ × Bool :=
  match validate_params value ewma ewma_std beta threshold_multiplier with
  | .error _ => (ewma, ewma_std, false)
  | .ok _ => anomaly_core value.val ewma ewma_std beta threshold_multiplier

/-- The state after `n` calls of `anomaly_detection` with the constant
sample `v`, starting from `(level₀, spread₀)`: each call's returned
`(ewma_new, ewma_std_new)` becomes the next call's `(ewma, ewma_std)`,
as the animation callback in `src/main.py` does via `nonlocal ewma, ewma_std`. -/
noncomputable def iterState (β k v : ℝ) (p : ℝ × ℝ) : ℕ → ℝ × ℝ
  | 0 => p
  | n + 1 =>
    ((anomaly_detection (.finite v) (iterState β k v p n).1 (iterState β k v p n).2 β k).1,
     (anomaly_detection (.finite v) (iterState β k v p n).1 (iterState β k v p n).2 β k).2.1)

/-- On a finite value with a valid configuration, `validate_params` succeeds. -/
theorem validate_params_ok (x l s β k : ℝ) (hβ0 : 0 < β) (hβ1 : β < 1)
    (hk : 0 < k) (hs : 0 ≤ s) :
    validate_params (.finite x) l s β k = .ok () := by
  unfold validate_params
  simp [PyVal.isFiniteNumber, hβ0, hβ1, not_le.mpr hk, not_lt.mpr hs]

/-- On a finite value with a valid configuration, `anomaly_detection` reduces
to its arithmetic body. -/
theorem anomaly_detection_valid (x l s β k : ℝ) (hβ0 : 0 < β) (hβ1 : β < 1)
    (hk : 0 < k) (hs : 0 ≤ s) :
    anomaly_detection (.finite x) l s β k = anomaly_core x l s β k := by
  unfold anomaly_detection
  rw [validate_params_ok x l s β k hβ0 hβ1 hk hs]
  rfl

/-- C1: for every finite real sample and every valid config (`0 < β < 1`,
`k > 0`) and state with `spread ≥ 0`, `update` computes exactly
`level' = β·sample + (1−β)·level`,
`variance' = β·(sample − level')² + (1−β)·spread²`,
`spread' = sqrt(variance')`, `threshold = k·spread'`,
`isAnomaly = (|sample − level'| > threshold)`, and returns the triple
`(level', spread', isAnomaly)`. -/
theorem C1_update_formulas (x l s β k : ℝ) (hβ0 : 0 < β) (hβ1 : β < 1)
    (hk : 0 < k) (hs : 0 ≤ s) :
    anomaly_detection (.finite x) l s β k =
      (β * x + (1 - β) * l,
       Real.sqrt (β * (x - (β * x + (1 - β) * l)) ^ 2 + (1 - β) * s ^ 2),
       decide (|x - (β * x + (1 - β) * l)| >
         k * Real.sqrt (β * (x - (β * x + (1 - β) * l)) ^ 2 + (1 - β) * s ^ 2))) := by
  rw [anomaly_detection_valid x l s β k hβ0 hβ1 hk hs]
  rfl

/-- C1 witness: at sample 0, level 0, spread 0, β = 1/2, k = 1 the update
returns level 0, spread 0, no anomaly. -/
theorem C1_update_formulas_witness :
    anomaly_detection (.finite 0) 0 0 (1/2) 1 = (0, 0, false) := by
  rw [C1_update_formulas 0 0 0 (1/2) 1 (by norm_num) (by norm_num) (by norm_num) le_rfl]
  norm_num

/-- C4: for every finite sample, valid config, and state with `spread ≥ 0`,
the spread returned by `update` is `≥ 0`, so every operation preserves the
invariant `spread ≥ 0`. -/
theorem C4_spread_nonneg (x l s β k : ℝ) (hβ0 : 0 < β) (hβ1 : β < 1)
    (hk : 0 < k) (hs : 0 ≤ s) :
    0 ≤ (anomaly_detection (.finite x) l s β k).2.1 := by
  rw [anomaly_detection_valid x l s β k hβ0 hβ1 hk hs]
  exact Real.sqrt_nonneg _

/-- C4 witness: at sample 7, level 1, spread 2, β = 1/2, k = 3 the returned
spread is non-negative. -/
theorem C4_spread_nonneg_witness :
    0 ≤ (anomaly_detection (.finite 7) 1 2 (1/2) 3).2.1 :=
  C4_spread_nonneg 7 1 2 (1/2) 3 (by norm_num) (by norm_num) (by norm_num) (by norm_num)

/-- C5: a sample whose post-update deviation is exactly at the boundary,
`|sample − level'| = k·spread'`, is NOT flagged: the comparison is a
strict `>`, not `≥`. -/
theorem C5_boundary_not_flagged (x l s β k : ℝ) (hβ0 : 0 < β) (hβ1 : β < 1)
    (hk : 0 < k) (hs : 0 ≤ s)
    (hb : |x - (anomaly_detection (.finite x) l s β k).1| =
      k * (anomaly_detection (.finite x) l s β k).2.1) :
    (anomaly_detection (.finite x) l s β k).2.2 = false := by
  rw [anomaly_detection_valid x l s β k hβ0 hβ1 hk hs] at hb ⊢
  simp only [anomaly_core] at hb ⊢
  rw [decide_eq_false_iff_not, hb]
  exact lt_irrefl _

/-- C5 witness: at sample 0 = level with spread 0, β = 1/2, k = 1 the
deviation equals the threshold (both are 0) and no anomaly is flagged. -/
theorem C5_boundary_not_flagged_witness :
    (anomaly_detection (.finite 0) 0 0 (1/2) 1).2.2 = false := by
  have hval := anomaly_detection_valid 0 0 0 (1/2) 1 (by norm_num) (by norm_num)
    (by norm_num) le_rfl
  refine C5_boundary_not_flagged 0 0 0 (1/2) 1 (by norm_num) (by norm_num)
    (by norm_num) le_rfl ?_
  rw [hval]
  simp only [anomaly_core]
  norm_num

/-- C9: `update` is deterministic: the returned triple is a pure function of
the sample, the pre-update level, the pre-update spread, and the config —
identical arguments produce identical results. -/
theorem C9_deterministic (v₁ v₂ : PyVal) (l₁ l₂ s₁ s₂ β₁ β₂ k₁ k₂ : ℝ)
    (hv : v₁ = v₂) (hl : l₁ = l₂) (hs : s₁ = s₂) (hβ : β₁ = β₂) (hk : k₁ = k₂) :
    anomaly_detection v₁ l₁ s₁ β₁ k₁ = anomaly_detection v₂ l₂ s₂ β₂ k₂ := by
  rw [hv, hl, hs, hβ, hk]

/-- C9 witness: two calls with the same concrete arguments agree. -/
theorem C9_deterministic_witness :
    anomaly_detection (.finite 4) 0 1 (3/10) (3/2) =
      anomaly_detection (.finite 4) 0 1 (3/10) (3/2) :=
  C9_deterministic (.finite 4) (.finite 4) 0 0 1 1 (3/10) (3/10) (3/2) (3/2)
    rfl rfl rfl rfl rfl

/-- C10: whenever validation fails (non-finite or non-numeric sample, β
outside `(0,1)`, `k ≤ 0`, or `spread < 0`), `anomaly_detection` propagates no
exception: it returns exactly the unmodified prior `(ewma, ewma_std)` with
`is_anomaly = False`, indistinguishable from a normal non-anomalous result. -/
theorem C10_error_absorbed (value : PyVal) (l s β k : ℝ)
    (h : value.isFiniteNumber = false ∨ ¬(0 < β ∧ β < 1) ∨ k ≤ 0 ∨ s < 0) :
    anomaly_detection value l s β k = (l, s, false) := by
  unfold anomaly_detection validate_params
  by_cases h1 : value.isFiniteNumber = false
  · rw [if_pos h1]
  · rw [if_neg h1]
    by_cases h2 : ¬(0 < β ∧ β < 1)
    · rw [if_pos h2]
    · rw [if_neg h2]
      by_cases h3 : k ≤ 0
      · rw [if_pos h3]
      · rw [if_neg h3]
        by_cases h4 : s < 0
        · rw [if_pos h4]
        · exfalso
          rcases h with h | h | h | h
          exacts [h1 h, h2 h, h3 h, h4 h]

/-- C10 witness: `anomaly_detection` on a NaN sample returns the prior state
with no anomaly flag. -/
theorem C10_error_absorbed_witness :
    anomaly_detection .nan 0 1 (3/10) 2 = (0, 1, false) :=
  C10_error_absorbed .nan 0 1 (3/10) 2 (Or.inl rfl)

/-- Whenever one of the four validation conditions fails, `validate_params`
returns an error. -/
theorem validate_params_error (value : PyVal) (l s β k : ℝ)
    (h : value.isFiniteNumber = false ∨ ¬(0 < β ∧ β < 1) ∨ k ≤ 0 ∨ s < 0) :
    ∃ e, validate_params value l s β k = Except.error e := by
  unfold validate_params
  by_cases h1 : value.isFiniteNumber = false
  · rw [if_pos h1]; exact ⟨_, rfl⟩
  · rw [if_neg h1]
    by_cases h2 : ¬(0 < β ∧ β < 1)
    · rw [if_pos h2]; exact ⟨_, rfl⟩
    · rw [if_neg h2]
      by_cases h3 : k ≤ 0
      · rw [if_pos h3]; exact ⟨_, rfl⟩
      · rw [if_neg h3]
        by_cases h4 : s < 0
        · rw [if_pos h4]; exact ⟨_, rfl⟩
        · exfalso
          rcases h with h | h | h | h
          exacts [h1 h, h2 h, h3 h, h4 h]

/-- When `validate_params` errors, the `except` branch of `anomaly_detection`
returns the unmodified prior with `is_anomaly = False`. -/
theorem anomaly_detection_of_error (value : PyVal) (l s β k : ℝ) (e : DetectError)
    (he : validate_params value l s β k = Except.error e) :
    anomaly_detection value l s β k = (l, s, false) := by
  unfold anomaly_detection
  rw [he]

/-- Evaluation rule for the arithmetic body when the deviation does not
exceed the threshold. -/
theorem anomaly_core_eval_false (x l s β k lev std : ℝ)
    (hlev : β * x + (1 - β) * l = lev)
    (hvar : β * (x - lev) ^ 2 + (1 - β) * s ^ 2 = std ^ 2)
    (hstd : 0 ≤ std)
    (hnot : ¬ |x - lev| > k * std) :
    anomaly_core x l s β k = (lev, std, false) := by
  simp only [anomaly_core]
  rw [hlev, hvar, Real.sqrt_sq hstd]
  have hd : decide (|x - lev| > k * std) = false := by
    rw [decide_eq_false_iff_not]; exact hnot
  rw [hd]

/-- Evaluation rule for the arithmetic body when the deviation exceeds the
threshold. -/
theorem anomaly_core_eval_true (x l s β k lev std : ℝ)
    (hlev : β * x + (1 - β) * l = lev)
    (hvar : β * (x - lev) ^ 2 + (1 - β) * s ^ 2 = std ^ 2)
    (hstd : 0 ≤ std)
    (hgt : |x - lev| > k * std) :
    anomaly_core x l s β k = (lev, std, true) := by
  simp only [anomaly_core]
  rw [hlev, hvar, Real.sqrt_sq hstd]
  have hd : decide (|x - lev| > k * std) = true := by
    rw [decide_eq_true_eq]; exact hgt
  rw [hd]

/-- C2 counterexample: at sample NaN (state level 0, spread 1, β = 3/10,
k = 3/2) `validate_params` detects the invalid value, yet `anomaly_detection`
returns the plain triple `(0, 1, false)` to its caller — no error result or
failure signal, contradicting the claim that the failure is reported rather
than absorbed. -/
theorem C2_counterexample :
    validate_params .nan 0 1 (3/10) (3/2) = Except.error .invalidValue ∧
      anomaly_detection .nan 0 1 (3/10) (3/2) = (0, 1, false) :=
  ⟨rfl, rfl⟩

/-- C2 (amended): on a non-finite/non-numeric sample or an invalid config,
the failure is detected synchronously (`validate_params` raises), but
`anomaly_detection` absorbs the error and returns the unmodified prior
`(ewma, ewma_std)` with `is_anomaly = False` instead of reporting it to the
caller. -/
theorem C2_error_detected_but_absorbed (value : PyVal) (l s β k : ℝ)
    (h : value.isFiniteNumber = false ∨ ¬(0 < β ∧ β < 1) ∨ k ≤ 0 ∨ s < 0) :
    (∃ e, validate_params value l s β k = Except.error e) ∧
      anomaly_detection value l s β k = (l, s, false) := by
  obtain ⟨e, he⟩ := validate_params_error value l s β k h
  exact ⟨⟨e, he⟩, anomaly_detection_of_error value l s β k e he⟩

/-- C2 witness: with the invalid config β = 2 (sample 1, level 0, spread 1,
k = 1) validation errors and the call returns `(0, 1, false)`. -/
theorem C2_error_detected_but_absorbed_witness :
    (∃ e, validate_params (.finite 1) 0 1 2 1 = Except.error e) ∧
      anomaly_detection (.finite 1) 0 1 2 1 = (0, 1, false) :=
  C2_error_detected_but_absorbed (.finite 1) 0 1 2 1 (Or.inr (Or.inl (by norm_num)))

/-- C3 counterexample: `update(nan)` from level 2, spread 3 (β = 1/2, k = 1)
returns `(2, 3, false)` — the very same triple returned by the fully valid,
successful call `update(5)` from level −1, spread 3 — so the caller receives
no `InvalidInput` report; an invalid call is indistinguishable from a normal
non-anomalous one. -/
theorem C3_counterexample :
    anomaly_detection .nan 2 3 (1/2) 1 = (2, 3, false) ∧
      anomaly_detection (.finite 5) (-1) 3 (1/2) 1 = (2, 3, false) := by
  constructor
  · rfl
  · rw [anomaly_detection_valid 5 (-1) 3 (1/2) 1 (by norm_num) (by norm_num)
      (by norm_num) (by norm_num)]
    refine anomaly_core_eval_false 5 (-1) 3 (1/2) 1 2 3 (by norm_num) (by norm_num)
      (by norm_num) ?_
    rw [show (5:ℝ) - 2 = 3 by norm_num, abs_of_nonneg (by norm_num : (0:ℝ) ≤ 3)]
    norm_num

/-- C3 (amended): calling `update` with a non-finite sample leaves `level`
and `spread` unchanged and returns them with `is_anomaly = False` (no
`InvalidInput` is reported to the caller); a subsequent `update(5)` behaves
exactly as if the invalid call never happened. -/
theorem C3_nonfinite_leaves_state (value : PyVal) (l s β k : ℝ)
    (h : value.isFiniteNumber = false) :
    anomaly_detection value l s β k = (l, s, false) ∧
      anomaly_detection (.finite 5) (anomaly_detection value l s β k).1
          (anomaly_detection value l s β k).2.1 β k =
        anomaly_detection (.finite 5) l s β k := by
  obtain ⟨e, he⟩ := validate_params_error value l s β k (Or.inl h)
  have habs := anomaly_detection_of_error value l s β k e he
  refine ⟨habs, ?_⟩
  rw [habs]

/-- C3 witness: after `update(nan)` from level 0, spread 1 (β = 3/10,
k = 3/2), the state is unchanged and `update(5)` gives the same result as
from the original state. -/
theorem C3_nonfinite_leaves_state_witness :
    anomaly_detection .nan 0 1 (3/10) (3/2) = (0, 1, false) ∧
      anomaly_detection (.finite 5) (anomaly_detection .nan 0 1 (3/10) (3/2)).1
          (anomaly_detection .nan 0 1 (3/10) (3/2)).2.1 (3/10) (3/2) =
        anomaly_detection (.finite 5) 0 1 (3/10) (3/2) :=
  C3_nonfinite_leaves_state .nan 0 1 (3/10) (3/2) rfl

/-- C6: detection is symmetric about `level'`: for a fixed valid config and
state, two samples whose post-update deviations are `+δ` and `−δ` (equal
magnitude, opposite sign) receive the same `isAnomaly` classification. -/
theorem C6_threshold_symmetry (x₁ x₂ l s β k : ℝ) (hβ0 : 0 < β) (hβ1 : β < 1)
    (hk : 0 < k) (hs : 0 ≤ s)
    (hd : x₁ - (anomaly_detection (.finite x₁) l s β k).1 =
      -(x₂ - (anomaly_detection (.finite x₂) l s β k).1)) :
    (anomaly_detection (.finite x₁) l s β k).2.2 =
      (anomaly_detection (.finite x₂) l s β k).2.2 := by
  rw [anomaly_detection_valid x₁ l s β k hβ0 hβ1 hk hs,
    anomaly_detection_valid x₂ l s β k hβ0 hβ1 hk hs] at hd ⊢
  simp only [anomaly_core] at hd ⊢
  have h2 : (1 - β) * (x₁ + x₂ - 2 * l) = 0 := by linear_combination hd
  have hx : x₂ = 2 * l - x₁ := by
    rcases mul_eq_zero.mp h2 with h0 | h0
    · exfalso; linarith
    · linarith
  subst hx
  have e1 : 2 * l - x₁ - (β * (2 * l - x₁) + (1 - β) * l) =
      -(x₁ - (β * x₁ + (1 - β) * l)) := by ring
  rw [e1, abs_neg, neg_sq]

/-- C6 witness: from level 0, spread 1 (β = 1/2, k = 1) the samples 1 and −1
have post-update deviations 1/2 and −1/2 and get the same classification. -/
theorem C6_threshold_symmetry_witness :
    (anomaly_detection (.finite 1) 0 1 (1/2) 1).2.2 =
      (anomaly_detection (.finite (-1)) 0 1 (1/2) 1).2.2 := by
  refine C6_threshold_symmetry 1 (-1) 0 1 (1/2) 1 (by norm_num) (by norm_num)
    (by norm_num) (by norm_num) ?_
  rw [anomaly_detection_valid 1 0 1 (1/2) 1 (by norm_num) (by norm_num)
      (by norm_num) (by norm_num),
    anomaly_detection_valid (-1) 0 1 (1/2) 1 (by norm_num) (by norm_num)
      (by norm_num) (by norm_num)]
  simp only [anomaly_core]
  norm_num

/-- C7 counterexample: in Scenario 2 (β = 3/10, k = 3/2, level 0, spread 1,
sample 20) the returned spread squares to `0.3·(20−6)² + 0.7·1 = 59.5`, and
`59.5 ≠ 58.9`: the claim's value `variance' = 58.9` (hence
`spread' ≈ 7.675`, `threshold ≈ 11.51`) is an arithmetic slip. -/
theorem C7_counterexample :
    (anomaly_detection (.finite 20) 0 1 (3/10) (3/2)).2.1 ^ 2 = 119/2 ∧
      (119/2 : ℝ) ≠ 589/10 := by
  constructor
  · rw [anomaly_detection_valid 20 0 1 (3/10) (3/2) (by norm_num) (by norm_num)
      (by norm_num) (by norm_num)]
    simp only [anomaly_core]
    rw [Real.sq_sqrt (by positivity)]
    norm_num
  · norm_num

/-- C7 (amended): with β = 3/10, k = 3/2, level 0, spread 1, `update(20)`
returns `level' = 6.0`, `variance' = 0.3·(20−6)² + 0.7·1 = 59.5`,
`spread' = √59.5 ≈ 7.714`, `threshold ≈ 11.57`, and since
`|20 − 6| = 14 > threshold`, `isAnomaly = True`. -/
theorem C7_scenario_two :
    anomaly_detection (.finite 20) 0 1 (3/10) (3/2) =
      (6, Real.sqrt (119/2), true) := by
  rw [anomaly_detection_valid 20 0 1 (3/10) (3/2) (by norm_num) (by norm_num)
    (by norm_num) (by norm_num)]
  have harg : (3/10 : ℝ) * (20 - 6) ^ 2 + (1 - 3/10) * 1 ^ 2 = 119/2 := by norm_num
  refine anomaly_core_eval_true 20 0 1 (3/10) (3/2) 6 (Real.sqrt (119/2))
    (by norm_num) ?_ (Real.sqrt_nonneg _) ?_
  · rw [Real.sq_sqrt (by norm_num : (0:ℝ) ≤ 119/2)]
    norm_num
  · have hlt : Real.sqrt (119/2) < 28/3 := by
      rw [Real.sqrt_lt' (by norm_num : (0:ℝ) < 28/3)]
      norm_num
    rw [show (20:ℝ) - 6 = 14 by norm_num,
      abs_of_nonneg (by norm_num : (0:ℝ) ≤ 14)]
    linarith

/-- Along the constant-input iteration the spread stays non-negative. -/
theorem iterState_spread_nonneg (β k v : ℝ) (p : ℝ × ℝ) (hβ0 : 0 < β)
    (hβ1 : β < 1) (hk : 0 < k) (hs : 0 ≤ p.2) :
    ∀ n, 0 ≤ (iterState β k v p n).2 := by
  intro n
  induction n with
  | zero => exact hs
  | succ n ih =>
    show 0 ≤ (iterState β k v p (n + 1)).2
    unfold iterState
    rw [anomaly_detection_valid v (iterState β k v p n).1 (iterState β k v p n).2
      β k hβ0 hβ1 hk ih]
    simp only [anomaly_core]
    exact Real.sqrt_nonneg _

/-- One constant-input iteration step, written out. -/
theorem iterState_succ (β k v : ℝ) (p : ℝ × ℝ) (hβ0 : 0 < β)
    (hβ1 : β < 1) (hk : 0 < k) (hs : 0 ≤ p.2) (n : ℕ) :
    iterState β k v p (n + 1) =
      (β * v + (1 - β) * (iterState β k v p n).1,
       Real.sqrt (β * (v - (β * v + (1 - β) * (iterState β k v p n).1)) ^ 2 +
         (1 - β) * (iterState β k v p n).2 ^ 2)) := by
  have hn := iterState_spread_nonneg β k v p hβ0 hβ1 hk hs n
  show
    ((anomaly_detection (.finite v) (iterState β k v p n).1 (iterState β k v p n).2 β k).1,
     (anomaly_detection (.finite v) (iterState β k v p n).1 (iterState β k v p n).2 β k).2.1) = _
  rw [anomaly_detection_valid v (iterState β k v p n).1 (iterState β k v p n).2
    β k hβ0 hβ1 hk hn]
  simp only [anomaly_core]

/-- Exact geometric error formula for the level along the iteration. -/
theorem iterState_level (β k v : ℝ) (p : ℝ × ℝ) (hβ0 : 0 < β)
    (hβ1 : β < 1) (hk : 0 < k) (hs : 0 ≤ p.2) :
    ∀ n, (iterState β k v p n).1 - v = (1 - β) ^ n * (p.1 - v) := by
  intro n
  induction n with
  | zero => simp [iterState]
  | succ n ih =>
    rw [iterState_succ β k v p hβ0 hβ1 hk hs n]
    show β * v + (1 - β) * (iterState β k v p n).1 - v = _
    have h1 : (iterState β k v p n).1 = v + (1 - β) ^ n * (p.1 - v) := by linarith
    rw [h1, pow_succ]
    ring

/-- Exact closed form for the squared spread along the iteration. -/
theorem iterState_var (β k v : ℝ) (p : ℝ × ℝ) (hβ0 : 0 < β)
    (hβ1 : β < 1) (hk : 0 < k) (hs : 0 ≤ p.2) :
    ∀ n, (iterState β k v p n).2 ^ 2 =
      (1 - β) ^ n * p.2 ^ 2 +
        (p.1 - v) ^ 2 * ((1 - β) ^ n * (1 - β) * (1 - (1 - β) ^ n)) := by
  intro n
  induction n with
  | zero => simp [iterState]
  | succ n ih =>
    have hq0 : (0:ℝ) ≤ 1 - β := by linarith
    rw [iterState_succ β k v p hβ0 hβ1 hk hs n]
    show (Real.sqrt (β * (v - (β * v + (1 - β) * (iterState β k v p n).1)) ^ 2 +
      (1 - β) * (iterState β k v p n).2 ^ 2)) ^ 2 = _
    rw [Real.sq_sqrt (by positivity)]
    have hlev : (iterState β k v p n).1 = v + (1 - β) ^ n * (p.1 - v) := by
      have := iterState_level β k v p hβ0 hβ1 hk hs n
      linarith
    rw [hlev, ih, pow_succ]
    ring

/-- Geometric bound on the squared spread along the iteration. -/
theorem iterState_var_le (β k v : ℝ) (p : ℝ × ℝ) (hβ0 : 0 < β)
    (hβ1 : β < 1) (hk : 0 < k) (hs : 0 ≤ p.2) :
    ∀ n, (iterState β k v p n).2 ^ 2 ≤
      (1 - β) ^ n * (p.2 ^ 2 + (p.1 - v) ^ 2) := by
  intro n
  have hq0 : (0:ℝ) ≤ 1 - β := by linarith
  have hq1 : (1:ℝ) - β ≤ 1 := by linarith
  have hA0 : (0:ℝ) ≤ (1 - β) ^ n := pow_nonneg hq0 n
  have hA1 : (1 - β) ^ n ≤ 1 := pow_le_one₀ hq0 hq1
  rw [iterState_var β k v p hβ0 hβ1 hk hs n]
  have key : (1 - β) ^ n * (1 - β) * (1 - (1 - β) ^ n) ≤ (1 - β) ^ n := by
    have h1 : (1 - β) * (1 - (1 - β) ^ n) ≤ 1 - (1 - β) ^ n :=
      mul_le_of_le_one_left (by linarith) hq1
    have h2 : (1 - β) ^ n * ((1 - β) * (1 - (1 - β) ^ n)) ≤
        (1 - β) ^ n * (1 - (1 - β) ^ n) :=
      mul_le_mul_of_nonneg_left h1 hA0
    nlinarith [sq_nonneg ((1 - β) ^ n), h2]
  have key2 : (p.1 - v) ^ 2 * ((1 - β) ^ n * (1 - β) * (1 - (1 - β) ^ n)) ≤
      (p.1 - v) ^ 2 * (1 - β) ^ n :=
    mul_le_mul_of_nonneg_left key (sq_nonneg _)
  nlinarith [key2]

/-- C8: for every constant finite input `v`, valid config, and initial state
`(level₀, spread₀ ≥ 0)`, iterating `update` with sample `v` gives
`|level_n − v| = (1−β)^n·|level₀ − v|` (geometric rate determined by β),
`level → v`, and `spread → 0` as the call count tends to infinity. -/
theorem C8_constant_input_convergence (v l₀ s₀ β k : ℝ) (hβ0 : 0 < β)
    (hβ1 : β < 1) (hk : 0 < k) (hs : 0 ≤ s₀) :
    (∀ n, |(iterState β k v (l₀, s₀) n).1 - v| = (1 - β) ^ n * |l₀ - v|) ∧
      Tendsto (fun n => (iterState β k v (l₀, s₀) n).1) atTop (nhds v) ∧
      Tendsto (fun n => (iterState β k v (l₀, s₀) n).2) atTop (nhds 0) := by
  have hq0 : (0:ℝ) ≤ 1 - β := by linarith
  have hq1 : (1:ℝ) - β < 1 := by linarith
  have hp2 : (0:ℝ) ≤ ((l₀, s₀) : ℝ × ℝ).2 := hs
  have hlev := iterState_level β k v (l₀, s₀) hβ0 hβ1 hk hp2
  have hpow : Tendsto (fun n : ℕ => (1 - β) ^ n) atTop (nhds 0) :=
    tendsto_pow_atTop_nhds_zero_of_lt_one hq0 hq1
  refine ⟨?_, ?_, ?_⟩
  · intro n
    rw [hlev n, abs_mul, abs_of_nonneg (pow_nonneg hq0 n)]
  · have hbase :
        Tendsto (fun n : ℕ => v + (1 - β) ^ n * (l₀ - v)) atTop (nhds v) := by
      have h1 := hpow.mul_const (l₀ - v)
      rw [zero_mul] at h1
      have h2 := h1.const_add v
      rw [add_zero] at h2
      exact h2
    refine hbase.congr ?_
    intro n
    have h := hlev n
    linarith
  · have hnn := iterState_spread_nonneg β k v (l₀, s₀) hβ0 hβ1 hk hp2
    have hvb := iterState_var_le β k v (l₀, s₀) hβ0 hβ1 hk hp2
    have hgl :
        Tendsto (fun n : ℕ => (1 - β) ^ n * (s₀ ^ 2 + (l₀ - v) ^ 2)) atTop
          (nhds 0) := by
      have h1 := hpow.mul_const (s₀ ^ 2 + (l₀ - v) ^ 2)
      rw [zero_mul] at h1
      exact h1
    have hV : Tendsto (fun n => (iterState β k v (l₀, s₀) n).2 ^ 2) atTop
        (nhds 0) :=
      squeeze_zero (fun n => sq_nonneg _) hvb hgl
    have hsq :
        Tendsto (fun n => Real.sqrt ((iterState β k v (l₀, s₀) n).2 ^ 2)) atTop
          (nhds 0) := by
      have hc := (Real.continuous_sqrt.tendsto 0).comp hV
      rw [Real.sqrt_zero] at hc
      exact hc
    refine hsq.congr ?_
    intro n
    exact Real.sqrt_sq (hnn n)

/-- C8 witness: with v = 0, level₀ = 1, spread₀ = 0, β = 1/2, k = 1 the
level error after 3 calls is (1/2)³·1 and both sequences converge. -/
theorem C8_constant_input_convergence_witness :
    |(iterState (1/2) 1 0 (1, 0) 3).1 - 0| = (1 - 1/2) ^ 3 * |1 - 0| ∧
      Tendsto (fun n => (iterState (1/2) 1 0 (1, 0) n).1) atTop (nhds 0) ∧
      Tendsto (fun n => (iterState (1/2) 1 0 (1, 0) n).2) atTop (nhds 0) := by
  obtain ⟨h1, h2, h3⟩ := C8_constant_input_convergence 0 1 0 (1/2) 1
    (by norm_num) (by norm_num) (by norm_num) le_rfl
  exact ⟨h1 3, h2, h3⟩
